import Mathlib

/-!
Verification of the `zenodolib.py` client (SiLeBAT/zenodo-python) against its
natural-language specification.  The single source file is shallowly embedded
below: each Python method of `ZenodoHandler` becomes a Lean definition that
computes the HTTP request(s) the method would issue, together with any local
(Python-level) exception it would raise before a request goes out.  The
behaviour of the Python standard-library pieces the code relies on
(`json.dumps`, dict comprehensions, `dict.update`) is modelled exactly for the
value shapes the client constructs.
-/

/-- Local (Python-level) exceptions the client code can raise before or instead
of performing an HTTP request. -/
inductive PyError where
  | typeError
  | keyError
  | jsonDecodeError
  | ioError
  deriving DecidableEq

/-- Python values as they appear in this client: strings, integers, dicts with
string keys (insertion-ordered, as in Python 3.7+), and sets.  Sets occur
because `deposition_files_update` builds the set literal
`{"filename", target_name}`. -/
inductive PyValue where
  | str (s : String)
  | int (n : Int)
  | pydict (entries : List (String × PyValue))
  | pyset (elems : List PyValue)

mutual

/-- `json.dumps` with its default separators `(", ", ": ")`: dict entries are
serialized in insertion order; serializing a `set` raises
`TypeError: Object of type set is not JSON serializable`. -/
def json_dumps : PyValue → Except PyError String
  | .str s => .ok ("\"" ++ s ++ "\"")
  | .int n => .ok (toString n)
  | .pydict es =>
      match json_dumpsEntries es with
      | .error e => .error e
      | .ok parts => .ok ("\x7b" ++ String.intercalate ", " parts ++ "\x7d")
  | .pyset _ => .error .typeError

/-- Serialize the entries of a dict in order, `"key": value` each. -/
def json_dumpsEntries : List (String × PyValue) → Except PyError (List String)
  | [] => .ok []
  | (k, v) :: rest =>
      match json_dumps v with
      | .error e => .error e
      | .ok vs =>
          match json_dumpsEntries rest with
          | .error e => .error e
          | .ok restS => .ok (("\"" ++ k ++ "\": " ++ vs) :: restS)

end

/-- Assignment `d[k] = v` on a Python dict: overwrite in place if the key is
present, otherwise append (insertion order is preserved). -/
def pyDictInsert (d : List (String × PyValue)) (k : String) (v : PyValue) :
    List (String × PyValue) :=
  if d.any (fun kv => kv.1 == k) then
    d.map (fun kv => if kv.1 == k then (k, v) else kv)
  else d ++ [(k, v)]

/-- Subscripting `v[k]`: a `KeyError` on a dict without the key, a `TypeError`
when `v` is not a dict (string/int/set subscripting with a string key). -/
def pyIndex (v : PyValue) (k : String) : Except PyError PyValue :=
  match v with
  | .pydict es =>
      match es.find? (fun kv => kv.1 == k) with
      | some kv => .ok kv.2
      | none => .error .keyError
  | _ => .error .typeError

/-- Python `str()` conversion as used by `"...".format(...)`.  Faithful for the
string and integer values that bucket links and identifiers take; container
values are abbreviated (the client only ever formats strings in practice). -/
def pyFormatStr : PyValue → String
  | .str s => s
  | .int n => toString n
  | .pydict _ => "<dict>"
  | .pyset _ => "<set>"

/-- Body of an HTTP request: absent, a serialized JSON string, or a streamed
local file's bytes. -/
inductive RBody where
  | empty
  | jsonStr (s : String)
  | fileStream (content : List Nat)
  deriving DecidableEq

/-- An HTTP request as the `requests` session would send it: the session's
persistent query parameters are merged into every request. -/
structure Request where
  method : String
  url : String
  params : List (String × String)
  headers : List (String × String)
  body : RBody
  deriving DecidableEq

/-- The persistent `requests.Session`: proxy mapping and persistent query
parameters, both fixed at construction of the handler. -/
structure Session where
  proxies : List (String × String)
  params : List (String × String)
  deriving DecidableEq

/-- `session.get(url)`. -/
def Session.get (s : Session) (url : String) : Request :=
  ⟨"GET", url, s.params, [], .empty⟩

/-- `session.post(url, data=..., headers=...)`; the no-argument form passes
`.empty` and `[]`. -/
def Session.post (s : Session) (url : String) (data : RBody)
    (headers : List (String × String)) : Request :=
  ⟨"POST", url, s.params, headers, data⟩

/-- `session.put(url, data=..., headers=...)`. -/
def Session.put (s : Session) (url : String) (data : RBody)
    (headers : List (String × String)) : Request :=
  ⟨"PUT", url, s.params, headers, data⟩

/-- `session.delete(url)`. -/
def Session.delete (s : Session) (url : String) : Request :=
  ⟨"DELETE", url, s.params, [], .empty⟩

/-- The client object: base URL chosen by the `test` flag, the token, and the
persistent session. -/
structure ZenodoHandler where
  base_url : String
  token : String
  session : Session
  deriving DecidableEq

/-- `ZenodoHandler.__init__(access_token, proxies=None, test=False)`.  The base
URL is the sandbox host iff `test` is true.  The constructor then runs
`self.session.proxies.update(proxies)`: with the default `proxies=None` this is
`dict.update(None)`, which raises `TypeError: 'NoneType' object is not
iterable`, so construction only succeeds when a proxies dict is passed.
Finally `session.params['access_token'] = access_token` installs the token as
a persistent query parameter. -/
def ZenodoHandler.init (access_token : String)
    (proxies : Option (List (String × String))) (test : Bool) :
    Except PyError ZenodoHandler :=
  let base_url :=
    if test then "https://sandbox.zenodo.org/api/" else "https://zenodo.org/api/"
  match proxies with
  | none => .error .typeError
  | some p => .ok ⟨base_url, access_token, ⟨p, [("access_token", access_token)]⟩⟩

/-- `deposition_list`: GET `{base}deposit/depositions`. -/
def ZenodoHandler.deposition_list (h : ZenodoHandler) : Request :=
  h.session.get (h.base_url ++ "deposit/depositions")

/-- `deposition_create`: POST `{base}deposit/depositions` with body `"{}"`. -/
def ZenodoHandler.deposition_create (h : ZenodoHandler) : Request :=
  h.session.post (h.base_url ++ "deposit/depositions") (.jsonStr "\x7b\x7d")
    [("Content-Type", "application/json")]

/-- `deposition_retrieve`: GET `{base}deposit/depositions/{id}`. -/
def ZenodoHandler.deposition_retrieve (h : ZenodoHandler)
    (deposition_id : String) : Request :=
  h.session.get (h.base_url ++ ("deposit/depositions/" ++ deposition_id))

/-- `deposition_update`: PUT `{base}deposit/depositions/{id}` with
`json.dumps(data)` as body (a `json.dumps` failure propagates and no request
is issued). -/
def ZenodoHandler.deposition_update (h : ZenodoHandler) (deposition_id : String)
    (data : PyValue) : Except PyError Request :=
  match json_dumps data with
  | .error e => .error e
  | .ok body =>
      .ok (h.session.put (h.base_url ++ ("deposit/depositions/" ++ deposition_id))
        (.jsonStr body) [("Content-Type", "application/json")])

/-- `deposition_delete`: DELETE `{base}deposit/depositions/{id}`. -/
def ZenodoHandler.deposition_delete (h : ZenodoHandler)
    (deposition_id : String) : Request :=
  h.session.delete (h.base_url ++ ("deposit/depositions/" ++ deposition_id))

/-- `deposition_files_list`: GET `{base}deposit/depositions/{id}/files`. -/
def ZenodoHandler.deposition_files_list (h : ZenodoHandler)
    (deposition_id : String) : Request :=
  h.session.get (h.base_url ++ ("deposit/depositions/" ++ deposition_id ++ "/files"))

/-- A response to the deposition-retrieve GET inside `deposition_files_create`:
its status code and the result of JSON-decoding its body (`none` when the body
is not JSON, so that `r.json()` raises). -/
structure Response where
  status_code : Nat
  jsonBody : Option PyValue

/-- `r.json()`: the decoded body, or `json.JSONDecodeError` when the body is
not JSON. -/
def Response.json (r : Response) : Except PyError PyValue :=
  match r.jsonBody with
  | some v => .ok v
  | none => .error .jsonDecodeError

/-- The chained lookup `r.json()['links']['bucket']` from
`deposition_files_create`. -/
def bucketOf (r : Response) : Except PyError PyValue :=
  match r.json with
  | .error e => .error e
  | .ok v =>
      match pyIndex v "links" with
      | .error e => .error e
      | .ok links => pyIndex links "bucket"

/-- Observable local events of an operation: an HTTP request going out, or an
attempt to open a local file. -/
inductive Event where
  | req (r : Request)
  | openFile (path : String)
  deriving DecidableEq

/-- The HTTP requests among a trace of events. -/
def requestsOf (events : List Event) : List Request :=
  events.filterMap (fun e =>
    match e with
    | .req r => some r
    | .openFile _ => none)

/-- `deposition_files_create(deposition_id, target_name, file_path)`:
first `r = self.deposition_retrieve(deposition_id)` (a GET), then
`bucket_url = r.json()['links']['bucket']` (any failure raises locally, after
the GET), then `open(file_path, 'rb')` (raising `IOError` when the path cannot
be opened), and finally a PUT of the streamed bytes to
`{bucket_url}/{target_name}` with Accept `application/json` and Content-Type
`application/octet-stream`.  The environment is passed in as the response to
the GET and the readable-file map (`none` = cannot be opened). -/
def ZenodoHandler.deposition_files_create (h : ZenodoHandler)
    (deposition_id target_name file_path : String)
    (retrieveResponse : Response) (fileContents : String → Option (List Nat)) :
    List Event × Except PyError Unit :=
  let getReq := h.deposition_retrieve deposition_id
  match bucketOf retrieveResponse with
  | .error e => ([.req getReq], .error e)
  | .ok bucket =>
      let url := pyFormatStr bucket ++ "/" ++ target_name
      match fileContents file_path with
      | none => ([.req getReq, .openFile file_path], .error .ioError)
      | some content =>
          ([.req getReq, .openFile file_path,
            .req (h.session.put url (.fileStream content)
              [("Accept", "application/json"),
               ("Content-Type", "application/octet-stream")])],
           .ok ())

/-- `deposition_files_sort`: PUT `{base}deposit/depositions/{id}/files` with
body `json.dumps({'id': file_id for file_id in file_ids})`.  The dict
comprehension assigns the single key `'id'` once per element, each assignment
overwriting the previous one. -/
def ZenodoHandler.deposition_files_sort (h : ZenodoHandler)
    (deposition_id : String) (file_ids : List String) : Except PyError Request :=
  let d := file_ids.foldl (fun acc fid => pyDictInsert acc "id" (.str fid)) []
  match json_dumps (.pydict d) with
  | .error e => .error e
  | .ok body =>
      .ok (h.session.put
        (h.base_url ++ ("deposit/depositions/" ++ deposition_id ++ "/files"))
        (.jsonStr body) [("Content-Type", "application/json")])

/-- `deposition_files_retrieve`: GET
`{base}deposit/depositions/{id}/files/{file_id}`. -/
def ZenodoHandler.deposition_files_retrieve (h : ZenodoHandler)
    (deposition_id file_id : String) : Request :=
  h.session.get
    (h.base_url ++ ("deposit/depositions/" ++ deposition_id ++ "/files/" ++ file_id))

/-- `deposition_files_update`: builds
`data = json.dumps({"filename", target_name})` — note the comma: this is a
Python set literal, not a dict — and would then PUT it to
`{base}deposit/depositions/{id}/files/{file_id}`. -/
def ZenodoHandler.deposition_files_update (h : ZenodoHandler)
    (deposition_id file_id target_name : String) : Except PyError Request :=
  match json_dumps (.pyset [.str "filename", .str target_name]) with
  | .error e => .error e
  | .ok body =>
      .ok (h.session.put
        (h.base_url ++ ("deposit/depositions/" ++ deposition_id ++ "/files/" ++ file_id))
        (.jsonStr body) [("Content-Type", "application/json")])

/-- `deposition_files_delete`: DELETE
`{base}deposit/depositions/{id}/files/{file_id}`, unconditionally. -/
def ZenodoHandler.deposition_files_delete (h : ZenodoHandler)
    (deposition_id file_id : String) : Request :=
  h.session.delete
    (h.base_url ++ ("deposit/depositions/" ++ deposition_id ++ "/files/" ++ file_id))

/-- `deposition_actions_publish`: POST
`{base}deposit/depositions/{id}/actions/publish`. -/
def ZenodoHandler.deposition_actions_publish (h : ZenodoHandler)
    (deposition_id : String) : Request :=
  h.session.post
    (h.base_url ++ ("deposit/depositions/" ++ deposition_id ++ "/actions/publish"))
    .empty []

/-- `deposition_actions_edit`: POST
`{base}deposit/depositions/{id}/actions/edit`. -/
def ZenodoHandler.deposition_actions_edit (h : ZenodoHandler)
    (deposition_id : String) : Request :=
  h.session.post
    (h.base_url ++ ("deposit/depositions/" ++ deposition_id ++ "/actions/edit"))
    .empty []

/-- `deposition_actions_discard`: POST
`{base}deposit/depositions/{id}/actions/discard`. -/
def ZenodoHandler.deposition_actions_discard (h : ZenodoHandler)
    (deposition_id : String) : Request :=
  h.session.post
    (h.base_url ++ ("deposit/depositions/" ++ deposition_id ++ "/actions/discard"))
    .empty []

/-- `deposition_actions_newversion`: POST
`{base}deposit/depositions/{id}/actions/newversion`. -/
def ZenodoHandler.deposition_actions_newversion (h : ZenodoHandler)
    (deposition_id : String) : Request :=
  h.session.post
    (h.base_url ++ ("deposit/depositions/" ++ deposition_id ++ "/actions/newversion"))
    .empty []

/-- The status-code enumeration `StatusCode` of the source, member names and
values included (`unathorized` is the source's spelling). -/
inductive StatusCode where
  | ok
  | created
  | accepted
  | no_content
  | bad_request
  | unathorized
  | forbidden
  | not_found
  | method_not_allowed
  | conflict
  | payload_too_large
  | unsupported_media_type
  | too_many_requests
  | internal_server_error
  deriving DecidableEq

/-- The numeric value of each `StatusCode` member. -/
def StatusCode.value : StatusCode → Nat
  | .ok => 200
  | .created => 201
  | .accepted => 202
  | .no_content => 204
  | .bad_request => 400
  | .unathorized => 401
  | .forbidden => 403
  | .not_found => 404
  | .method_not_allowed => 405
  | .conflict => 409
  | .payload_too_large => 413
  | .unsupported_media_type => 415
  | .too_many_requests => 429
  | .internal_server_error => 500

/-- All members of `StatusCode`, in source order. -/
def StatusCode.all : List StatusCode :=
  [.ok, .created, .accepted, .no_content, .bad_request, .unathorized,
   .forbidden, .not_found, .method_not_allowed, .conflict, .payload_too_large,
   .unsupported_media_type, .too_many_requests, .internal_server_error]

/-- One public operation of the client, with its inputs. -/
inductive Operation where
  | deposition_list
  | deposition_create
  | deposition_retrieve (deposition_id : String)
  | deposition_update (deposition_id : String) (data : PyValue)
  | deposition_delete (deposition_id : String)
  | deposition_files_list (deposition_id : String)
  | deposition_files_create (deposition_id target_name file_path : String)
  | deposition_files_sort (deposition_id : String) (file_ids : List String)
  | deposition_files_retrieve (deposition_id file_id : String)
  | deposition_files_update (deposition_id file_id target_name : String)
  | deposition_files_delete (deposition_id file_id : String)
  | deposition_actions_publish (deposition_id : String)
  | deposition_actions_edit (deposition_id : String)
  | deposition_actions_discard (deposition_id : String)
  | deposition_actions_newversion (deposition_id : String)

/-- The environment an operation runs against: the response the remote end
gives to the deposition-retrieve GET inside `deposition_files_create`, and
which local files can be opened (`none` = open fails). -/
structure World where
  retrieve : Response
  fileContents : String → Option (List Nat)

/-- A method whose body is a single session call: one request, no exception. -/
def liftReq (r : Request) : List Event × Except PyError Unit :=
  ([.req r], .ok ())

/-- A method that serializes a body before its single session call: a
serialization failure propagates before any request is issued. -/
def liftExc : Except PyError Request → List Event × Except PyError Unit
  | .error e => ([], .error e)
  | .ok r => ([.req r], .ok ())

/-- Run one public operation of the client, yielding its trace of local events
and its outcome. -/
def runOperation (h : ZenodoHandler) (op : Operation) (w : World) :
    List Event × Except PyError Unit :=
  match op with
  | .deposition_list => liftReq h.deposition_list
  | .deposition_create => liftReq h.deposition_create
  | .deposition_retrieve d => liftReq (h.deposition_retrieve d)
  | .deposition_update d data => liftExc (h.deposition_update d data)
  | .deposition_delete d => liftReq (h.deposition_delete d)
  | .deposition_files_list d => liftReq (h.deposition_files_list d)
  | .deposition_files_create d t f =>
      h.deposition_files_create d t f w.retrieve w.fileContents
  | .deposition_files_sort d fids => liftExc (h.deposition_files_sort d fids)
  | .deposition_files_retrieve d fid => liftReq (h.deposition_files_retrieve d fid)
  | .deposition_files_update d fid t => liftExc (h.deposition_files_update d fid t)
  | .deposition_files_delete d fid => liftReq (h.deposition_files_delete d fid)
  | .deposition_actions_publish d => liftReq (h.deposition_actions_publish d)
  | .deposition_actions_edit d => liftReq (h.deposition_actions_edit d)
  | .deposition_actions_discard d => liftReq (h.deposition_actions_discard d)
  | .deposition_actions_newversion d => liftReq (h.deposition_actions_newversion d)

/-- `url` is rooted at `base`: it extends `base` on the right. -/
def rootedAt (base url : String) : Prop :=
  ∃ rest, url = base ++ rest

/-- The request is the bucket PUT of a `deposition_files_create` operation: its
URL is rooted at the bucket link taken from the deposition-retrieve response,
wherever that link points. -/
def bucketPutUrl (op : Operation) (w : World) (r : Request) : Prop :=
  ∃ d tn fp bucket, op = .deposition_files_create d tn fp ∧
    bucketOf w.retrieve = .ok bucket ∧
    r.url = pyFormatStr bucket ++ "/" ++ tn

/-- A production-environment handler as `ZenodoHandler("tok", {}, False)`
builds it. -/
def zh0 : ZenodoHandler :=
  ⟨"https://zenodo.org/api/", "tok", ⟨[], [("access_token", "tok")]⟩⟩

/-- A sandbox-environment handler as `ZenodoHandler("tok", {}, True)` builds
it. -/
def zhSandbox : ZenodoHandler :=
  ⟨"https://sandbox.zenodo.org/api/", "tok", ⟨[], [("access_token", "tok")]⟩⟩

/-- A deposition-retrieve response whose `links.bucket` points into the
production host. -/
def respGood : Response :=
  ⟨200, some (.pydict [("links",
    .pydict [("bucket", .str "https://zenodo.org/api/files/abc")])])⟩

/-- A deposition-retrieve response whose `links.bucket` points at a foreign
host. -/
def respEvil : Response :=
  ⟨200, some (.pydict [("links",
    .pydict [("bucket", .str "https://evil.example/bucket")])])⟩

/-- A response whose body is not JSON (`r.json()` raises). -/
def respNotJson : Response := ⟨200, none⟩

/-- Every local file opens and reads as the bytes `[1, 2, 3]`. -/
def fcGood : String → Option (List Nat) := fun _ => some [1, 2, 3]

/-- No local file can be opened. -/
def fcNone : String → Option (List Nat) := fun _ => none

/-- A benign world: good bucket link, readable files. -/
def w0 : World := ⟨respGood, fcGood⟩

/-- A rooted URL agrees with its base on the base's characters. -/
theorem rootedAt_take (base url : String) (h : rootedAt base url) :
    url.data.take base.data.length = base.data := by
  obtain ⟨rest, rfl⟩ := h
  rw [String.data_append]
  exact List.take_left _ _

/-- Shape of every request any operation issues: it carries the session's
persistent query parameters, and its URL is rooted at the handler's base URL —
except for the bucket PUT of `deposition_files_create`, whose URL is rooted at
the bucket link taken from the deposition-retrieve response. -/
theorem requests_shape (h : ZenodoHandler) (op : Operation) (w : World) :
    ∀ r ∈ requestsOf (runOperation h op w).1,
      r.params = h.session.params ∧
        (rootedAt h.base_url r.url ∨ bucketPutUrl op w r) := by
  intro r hr
  cases op with
  | deposition_list =>
      simp only [runOperation, liftReq, requestsOf, ZenodoHandler.deposition_list,
        Session.get, List.filterMap, List.mem_singleton] at hr
      subst hr
      exact ⟨rfl, Or.inl ⟨_, rfl⟩⟩
  | deposition_create =>
      simp only [runOperation, liftReq, requestsOf, ZenodoHandler.deposition_create,
        Session.post, List.filterMap, List.mem_singleton] at hr
      subst hr
      exact ⟨rfl, Or.inl ⟨_, rfl⟩⟩
  | deposition_retrieve d =>
      simp only [runOperation, liftReq, requestsOf, ZenodoHandler.deposition_retrieve,
        Session.get, List.filterMap, List.mem_singleton] at hr
      subst hr
      exact ⟨rfl, Or.inl ⟨_, rfl⟩⟩
  | deposition_update d data =>
      cases hjd : json_dumps data with
      | error e =>
          simp only [runOperation, liftExc, requestsOf, ZenodoHandler.deposition_update,
            hjd, List.filterMap, List.not_mem_nil] at hr
      | ok body =>
          simp only [runOperation, liftExc, requestsOf, ZenodoHandler.deposition_update,
            hjd, Session.put, List.filterMap, List.mem_singleton] at hr
          subst hr
          exact ⟨rfl, Or.inl ⟨_, rfl⟩⟩
  | deposition_delete d =>
      simp only [runOperation, liftReq, requestsOf, ZenodoHandler.deposition_delete,
        Session.delete, List.filterMap, List.mem_singleton] at hr
      subst hr
      exact ⟨rfl, Or.inl ⟨_, rfl⟩⟩
  | deposition_files_list d =>
      simp only [runOperation, liftReq, requestsOf, ZenodoHandler.deposition_files_list,
        Session.get, List.filterMap, List.mem_singleton] at hr
      subst hr
      exact ⟨rfl, Or.inl ⟨_, rfl⟩⟩
  | deposition_files_create d tn fp =>
      cases hb : bucketOf w.retrieve with
      | error e =>
          simp only [runOperation, requestsOf, ZenodoHandler.deposition_files_create,
            hb, ZenodoHandler.deposition_retrieve, Session.get, List.filterMap,
            List.mem_singleton] at hr
          subst hr
          exact ⟨rfl, Or.inl ⟨_, rfl⟩⟩
      | ok bucket =>
          cases hf : w.fileContents fp with
          | none =>
              simp only [runOperation, requestsOf, ZenodoHandler.deposition_files_create,
                hb, hf, ZenodoHandler.deposition_retrieve, Session.get, List.filterMap,
                List.mem_singleton] at hr
              subst hr
              exact ⟨rfl, Or.inl ⟨_, rfl⟩⟩
          | some content =>
              simp only [runOperation, requestsOf, ZenodoHandler.deposition_files_create,
                hb, hf, ZenodoHandler.deposition_retrieve, Session.get, Session.put,
                List.filterMap, List.mem_cons, List.mem_singleton,
                List.not_mem_nil, or_false] at hr
              cases hr with
              | inl hget =>
                  subst hget
                  exact ⟨rfl, Or.inl ⟨_, rfl⟩⟩
              | inr hput =>
                  subst hput
                  exact ⟨rfl, Or.inr ⟨d, tn, fp, bucket, rfl, hb, rfl⟩⟩
  | deposition_files_sort d fids =>
      cases hjd : json_dumps (.pydict (fids.foldl
          (fun acc fid => pyDictInsert acc "id" (.str fid)) [])) with
      | error e =>
          simp only [runOperation, liftExc, requestsOf,
            ZenodoHandler.deposition_files_sort, hjd, List.filterMap,
            List.not_mem_nil] at hr
      | ok body =>
          simp only [runOperation, liftExc, requestsOf,
            ZenodoHandler.deposition_files_sort, hjd, Session.put, List.filterMap,
            List.mem_singleton] at hr
          subst hr
          exact ⟨rfl, Or.inl ⟨_, rfl⟩⟩
  | deposition_files_retrieve d fid =>
      simp only [runOperation, liftReq, requestsOf,
        ZenodoHandler.deposition_files_retrieve, Session.get, List.filterMap,
        List.mem_singleton] at hr
      subst hr
      exact ⟨rfl, Or.inl ⟨_, rfl⟩⟩
  | deposition_files_update d fid tn =>
      simp only [runOperation, liftExc, requestsOf,
        ZenodoHandler.deposition_files_update, json_dumps, List.filterMap,
        List.not_mem_nil] at hr
  | deposition_files_delete d fid =>
      simp only [runOperation, liftReq, requestsOf,
        ZenodoHandler.deposition_files_delete, Session.delete, List.filterMap,
        List.mem_singleton] at hr
      subst hr
      exact ⟨rfl, Or.inl ⟨_, rfl⟩⟩
  | deposition_actions_publish d =>
      simp only [runOperation, liftReq, requestsOf,
        ZenodoHandler.deposition_actions_publish, Session.post, List.filterMap,
        List.mem_singleton] at hr
      subst hr
      exact ⟨rfl, Or.inl ⟨_, rfl⟩⟩
  | deposition_actions_edit d =>
      simp only [runOperation, liftReq, requestsOf,
        ZenodoHandler.deposition_actions_edit, Session.post, List.filterMap,
        List.mem_singleton] at hr
      subst hr
      exact ⟨rfl, Or.inl ⟨_, rfl⟩⟩
  | deposition_actions_discard d =>
      simp only [runOperation, liftReq, requestsOf,
        ZenodoHandler.deposition_actions_discard, Session.post, List.filterMap,
        List.mem_singleton] at hr
      subst hr
      exact ⟨rfl, Or.inl ⟨_, rfl⟩⟩
  | deposition_actions_newversion d =>
      simp only [runOperation, liftReq, requestsOf,
        ZenodoHandler.deposition_actions_newversion, Session.post, List.filterMap,
        List.mem_singleton] at hr
      subst hr
      exact ⟨rfl, Or.inl ⟨_, rfl⟩⟩

/-- C1: the claim says `deposition_files_sort` on `[f1, f2, f3]` produces a
body whose ordered id list matches the input order.  Evaluating the code at
that input shows otherwise: the dict comprehension
`{'id': file_id for file_id in file_ids}` reassigns the single key `'id'` once
per element, so the serialized body is `{"id": "f3"}` — only the last id
survives and no order is transmitted. -/
theorem C1_sort_body_collapses_to_last_id :
    zh0.deposition_files_sort "7" ["f1", "f2", "f3"] =
      .ok ⟨"PUT", "https://zenodo.org/api/deposit/depositions/7/files",
        [("access_token", "tok")], [("Content-Type", "application/json")],
        .jsonStr "\x7b\"id\": \"f3\"\x7d"⟩ := by
  rfl

/-- C3: on a readable file and a well-formed retrieve response,
`deposition_files_create` issues exactly two requests — the deposition GET,
then a PUT of the streamed bytes to `{bucket}/{target_name}` with Accept
`application/json` and Content-Type `application/octet-stream`.  But the
claim's second half — every other operation issues exactly one request — fails
on `deposition_files_update`, which raises a local `TypeError` (serializing a
set literal) and issues zero requests. -/
theorem C3_upload_two_requests_but_rename_issues_none :
    requestsOf (zh0.deposition_files_create "7" "data.csv" "/tmp/f"
        respGood fcGood).1 =
      [zh0.deposition_retrieve "7",
       ⟨"PUT", "https://zenodo.org/api/files/abc/data.csv",
        [("access_token", "tok")],
        [("Accept", "application/json"),
         ("Content-Type", "application/octet-stream")],
        .fileStream [1, 2, 3]⟩] ∧
    zh0.deposition_files_update "1" "2" "new.txt" = .error .typeError := by
  exact ⟨rfl, rfl⟩

/-- C4: the claim says `deposition_files_update` issues one PUT whose JSON
body maps `filename` to the new name.  Evaluating the code shows the body
expression `json.dumps({"filename", target_name})` serializes a set literal,
which raises `TypeError`, so the method always fails locally and no request is
issued. -/
theorem C4_rename_serializes_set_and_raises :
    json_dumps (.pyset [.str "filename", .str "name2.txt"]) =
      .error .typeError ∧
    zh0.deposition_files_update "5" "9" "name2.txt" = .error .typeError := by
  exact ⟨rfl, rfl⟩

/-- C5: the claim says constructing a handler with only an access token (the
default `proxies=None`) succeeds.  Evaluating the constructor shows
`self.session.proxies.update(None)` raises `TypeError`, for every token and
either environment flag, so construction with the default proxies always
fails. -/
theorem C5_default_proxies_construction_raises :
    ∀ (access_token : String) (test : Bool),
      ZenodoHandler.init access_token none test = .error .typeError := by
  intro access_token test
  rfl

/-- C8: the status-code enumeration reproduces exactly the fourteen known
values, in source order, and no operation branches on a response status code:
an operation's trace and outcome are unchanged under any change of the status
code of the response it is run against. -/
theorem C8_status_codes_and_no_branching :
    StatusCode.all.map StatusCode.value =
      [200, 201, 202, 204, 400, 401, 403, 404, 405, 409, 413, 415, 429, 500] ∧
    ∀ (h : ZenodoHandler) (op : Operation) (s₁ s₂ : Nat) (j : Option PyValue)
      (fc : String → Option (List Nat)),
      runOperation h op ⟨⟨s₁, j⟩, fc⟩ = runOperation h op ⟨⟨s₂, j⟩, fc⟩ := by
  refine ⟨rfl, ?_⟩
  intro h op s₁ s₂ j fc
  cases op <;> rfl

/-- C9: `deposition_files_delete` is unconditional: for every handler, ids and
world (in particular, whatever lifecycle state the deposition is in remotely),
it issues exactly the one DELETE request to
`{base}deposit/depositions/{id}/files/{file_id}` and raises nothing locally. -/
theorem C9_delete_file_unconditional :
    ∀ (h : ZenodoHandler) (deposition_id file_id : String) (w : World),
      runOperation h (.deposition_files_delete deposition_id file_id) w =
        ([.req ⟨"DELETE",
            h.base_url ++
              ("deposit/depositions/" ++ deposition_id ++ "/files/" ++ file_id),
            h.session.params, [], .empty⟩],
         .ok ()) := by
  intro h deposition_id file_id w
  rfl

/-- C2 counterexample: the claim says that on an unopenable file path,
`deposition_files_create` fails before any HTTP request is issued.  At this
concrete input the failure is indeed a file-access error, but one HTTP request
— the deposition-retrieve GET — has already been issued before the open is
attempted, so the number of requests preceding the failure is 1, not 0. -/
theorem C2_counterexample_get_precedes_open :
    zh0.deposition_files_create "7" "data.csv" "/no/such/file" respGood fcNone =
      ([.req (zh0.deposition_retrieve "7"), .openFile "/no/such/file"],
       .error .ioError) ∧
    (requestsOf (zh0.deposition_files_create "7" "data.csv" "/no/such/file"
        respGood fcNone).1).length = 1 := by
  exact ⟨rfl, rfl⟩

/-- C2 (amended): if the local file cannot be opened, `deposition_files_create`
fails with a file-access error before the upload PUT is issued — but after the
one deposition-retrieve GET, which always precedes the open: the trace is
exactly the GET followed by the failed open, and the outcome is `IOError`. -/
theorem C2_upload_open_failure_after_single_get
    (h : ZenodoHandler) (deposition_id target_name file_path : String)
    (resp : Response) (fc : String → Option (List Nat)) (bucket : PyValue)
    (hb : bucketOf resp = .ok bucket) (hf : fc file_path = none) :
    h.deposition_files_create deposition_id target_name file_path resp fc =
      ([.req (h.deposition_retrieve deposition_id), .openFile file_path],
       .error .ioError) := by
  simp only [ZenodoHandler.deposition_files_create, hb, hf]

/-- C2 witness: the amended statement at a concrete input. -/
theorem C2_upload_open_failure_witness :
    bucketOf respGood = .ok (.str "https://zenodo.org/api/files/abc") ∧
    fcNone "/any/file" = none ∧
    zh0.deposition_files_create "8" "out.csv" "/any/file" respGood fcNone =
      ([.req (zh0.deposition_retrieve "8"), .openFile "/any/file"],
       .error .ioError) :=
  ⟨rfl, rfl,
    C2_upload_open_failure_after_single_get zh0 "8" "out.csv" "/any/file"
      respGood fcNone (.str "https://zenodo.org/api/files/abc") rfl rfl⟩

/-- C10: when the retrieve response's body is not JSON or lacks the
`links.bucket` entry (any failure of the chained lookup), the upload fails
with that local error after the GET but before the PUT, and the local file is
never opened: the trace is exactly the one GET. -/
theorem C10_bad_retrieve_body_stops_before_open
    (h : ZenodoHandler) (deposition_id target_name file_path : String)
    (resp : Response) (fc : String → Option (List Nat)) (e : PyError)
    (he : bucketOf resp = .error e) :
    h.deposition_files_create deposition_id target_name file_path resp fc =
      ([.req (h.deposition_retrieve deposition_id)], .error e) := by
  simp only [ZenodoHandler.deposition_files_create, he]

/-- C10 witness: the statement at a concrete non-JSON response. -/
theorem C10_bad_retrieve_body_witness :
    bucketOf respNotJson = .error .jsonDecodeError ∧
    zh0.deposition_files_create "7" "data.csv" "/tmp/f" respNotJson fcGood =
      ([.req (zh0.deposition_retrieve "7")], .error .jsonDecodeError) :=
  ⟨rfl,
    C10_bad_retrieve_body_stops_before_open zh0 "7" "data.csv" "/tmp/f"
      respNotJson fcGood .jsonDecodeError rfl⟩

/-- C7: for every successfully constructed handler, every request any
operation issues carries the construction-time access token as the
`access_token` query parameter, via the session's persistent parameters. -/
theorem C7_token_on_every_request
    (access_token : String) (proxies : List (String × String)) (test : Bool)
    (h : ZenodoHandler)
    (hinit : ZenodoHandler.init access_token (some proxies) test = .ok h)
    (op : Operation) (w : World) :
    ∀ r ∈ requestsOf (runOperation h op w).1,
      ("access_token", access_token) ∈ r.params := by
  have hs : h.session.params = [("access_token", access_token)] := by
    simp only [ZenodoHandler.init, Except.ok.injEq] at hinit
    subst hinit
    rfl
  intro r hr
  rw [(requests_shape h op w r hr).1, hs]
  exact List.mem_singleton.mpr rfl

/-- C7 witness: the statement at a concrete handler and operation. -/
theorem C7_token_on_every_request_witness :
    ZenodoHandler.init "tok" (some []) false = .ok zh0 ∧
    ∀ r ∈ requestsOf (runOperation zh0 .deposition_list w0).1,
      ("access_token", "tok") ∈ r.params :=
  ⟨rfl, C7_token_on_every_request "tok" [] false zh0 rfl .deposition_list w0⟩

/-- C6 counterexample: the claim says every request of a sandbox-constructed
client is rooted at the sandbox host.  The upload PUT of
`deposition_files_create` goes to the bucket link taken from the retrieve
response; with a response whose `links.bucket` names a foreign host, the PUT
URL is not rooted at the sandbox host. -/
theorem C6_counterexample_bucket_put_foreign_host :
    (requestsOf (zhSandbox.deposition_files_create "7" "data.csv" "/tmp/f"
        respEvil fcGood).1).map Request.url =
      ["https://sandbox.zenodo.org/api/deposit/depositions/7",
       "https://evil.example/bucket/data.csv"] ∧
    ¬ rootedAt "https://sandbox.zenodo.org/api/"
        "https://evil.example/bucket/data.csv" := by
  refine ⟨rfl, fun hroot => ?_⟩
  have htake := rootedAt_take _ _ hroot
  revert htake
  decide

/-- C6 (amended): a client constructed with `test=true` has the sandbox base
URL and one constructed with `test=false` the production base URL, and every
request of every operation is rooted at that base URL — except the upload PUT
of `deposition_files_create`, which is rooted at the bucket link taken from
the deposition-retrieve response (wherever that link points). -/
theorem C6_routing
    (access_token : String) (proxies : List (String × String)) (test : Bool)
    (h : ZenodoHandler)
    (hinit : ZenodoHandler.init access_token (some proxies) test = .ok h)
    (op : Operation) (w : World) :
    h.base_url = (if test then "https://sandbox.zenodo.org/api/"
                  else "https://zenodo.org/api/") ∧
    ∀ r ∈ requestsOf (runOperation h op w).1,
      rootedAt h.base_url r.url ∨ bucketPutUrl op w r := by
  constructor
  · simp only [ZenodoHandler.init, Except.ok.injEq] at hinit
    subst hinit
    rfl
  · intro r hr
    exact (requests_shape h op w r hr).2

/-- C6 witness: the amended statement at a concrete sandbox handler. -/
theorem C6_routing_witness :
    ZenodoHandler.init "tok" (some []) true = .ok zhSandbox ∧
    (zhSandbox.base_url = (if true then "https://sandbox.zenodo.org/api/"
                           else "https://zenodo.org/api/") ∧
     ∀ r ∈ requestsOf (runOperation zhSandbox .deposition_list w0).1,
       rootedAt zhSandbox.base_url r.url ∨ bucketPutUrl .deposition_list w0 r) :=
  ⟨rfl, C6_routing "tok" [] true zhSandbox rfl .deposition_list w0⟩
